import Mathlib

/-!
Verification of the build-orchestration script `Utilities/build-script-helper.py`
of the indexstore-db repository.

The script is embedded shallowly:
* POSIX path operations (`os.path.join`, `os.path.normpath`, `os.path.abspath`)
  are modelled at the level of character lists, following CPython's posixpath
  implementation.
* The process environment (`os.environ`) is modelled as an association list of
  string pairs threaded through the computation; the script assigns into the
  shared `os.environ` mapping, so the updated environment is returned and
  passed on to subsequent invocations.
* Subprocess behaviour (`subprocess.check_call` / `check_output`) is modelled
  by an oracle giving the exit code and the standard output of each command;
  a non-zero exit code raises `CalledProcessError`.
* `shutil.rmtree` acts on an abstract filesystem recording which paths exist
  and which paths raise a (non-ENOENT) error on removal; with
  `ignore_errors=True` every error is suppressed, per the Python documentation.
* Observable actions (directory removals, banner prints, spawned commands)
  are collected in an event trace.
* A CPython process that terminates by an uncaught exception (such as
  `AssertionError` or `subprocess.CalledProcessError`) exits with status 1;
  a normal return from `main` exits with status 0.
-/

namespace BuildScriptHelper

/-! ## POSIX path model (CPython `posixpath`) -/

/-- Absoluteness test on raw characters: a POSIX path is absolute iff it
starts with a slash (`posixpath.isabs`). -/
def isAbsChars : List Char → Bool
  | [] => false
  | c :: _ => c == '/'

/-- Python's `os.path.isabs` on the POSIX platforms this script targets. -/
def isAbs (p : String) : Bool := isAbsChars p.data

/-- Python's `os.path.join(a, b)` for POSIX: if `b` is absolute the result is
`b`; otherwise `b` is appended to `a`, inserting a slash unless `a` is empty
or already ends with a slash. -/
def os_path_join2 (a b : String) : String :=
  if isAbsChars b.data then b
  else if a.data = [] then b
  else if a.data.getLast? = some '/' then String.mk (a.data ++ b.data)
  else String.mk (a.data ++ '/' :: b.data)

/-- Splitting a character list on slashes, matching Python's `str.split('/')`
(so `"".split('/') = [""]` and separators at the ends give empty parts). -/
def splitSlash : List Char → List (List Char)
  | [] => [[]]
  | c :: rest =>
    let r := splitSlash rest
    if c = '/' then [] :: r
    else
      match r with
      | [] => [[c]]
      | h :: t => (c :: h) :: t

/-- Number of slashes preserved at the front by `posixpath.normpath`:
one for an absolute path, except that exactly two leading slashes are kept
as two (POSIX allows an implementation-defined meaning for `//`). -/
def slashCount : List Char → Nat
  | [] => 0
  | [c1] => if c1 = '/' then 1 else 0
  | [c1, c2] => if c1 = '/' then (if c2 = '/' then 2 else 1) else 0
  | c1 :: c2 :: c3 :: _ =>
    if c1 = '/' then (if c2 = '/' then (if c3 = '/' then 1 else 2) else 1) else 0

/-- One step of `posixpath.normpath`'s component loop: append the component
unless it is `..` and can cancel the previous component. `k` is the number
of initial slashes (a `..` at the root of an absolute path is dropped). -/
def normStep (k : Nat) (acc : List (List Char)) (comp : List Char) : List (List Char) :=
  if ¬ comp = ['.', '.'] ∨ (k = 0 ∧ acc = []) ∨ (¬ acc = [] ∧ acc.getLast? = some ['.', '.']) then
    acc ++ [comp]
  else if ¬ acc = [] then acc.dropLast
  else acc

/-- Character-level `posixpath.normpath`. -/
def normpathChars (l : List Char) : List Char :=
  if l = [] then ['.']
  else
    let k := slashCount l
    let comps := (splitSlash l).filter (fun c => ¬ (c = [] ∨ c = ['.']))
    let path := List.replicate k '/' ++ List.intercalate ['/'] (comps.foldl (normStep k) [])
    if path = [] then ['.'] else path

/-- Python's `os.path.normpath` for POSIX. -/
def os_path_normpath (p : String) : String := String.mk (normpathChars p.data)

/-- Python's `os.path.abspath`: join onto the current working directory when
the path is relative, then normalize. -/
def os_path_abspath (cwd p : String) : String :=
  if isAbs p then os_path_normpath p
  else os_path_normpath (os_path_join2 cwd p)

/-! ## Process environment model (`os.environ`) -/

/-- The process environment: an association list from variable names to
values (`os.environ` is a mapping with unique keys). -/
abbrev Env := List (String × String)

/-- Lookup of an environment variable. -/
def envGet (e : Env) (k : String) : Option String :=
  (e.find? (fun p => p.1 == k)).map (fun p => p.2)

/-- Assignment `env[k] = v`: any previous binding of `k` is replaced. -/
def envSet (e : Env) (k v : String) : Env :=
  e.filter (fun p => ! (p.1 == k)) ++ [(k, v)]

/-! ## Filesystem model and `shutil.rmtree` -/

/-- Errors an `shutil.rmtree` call can encounter. `fileNotFound` stands for
ENOENT ("path does not exist"); `permissionError` stands for any other
OSError (for example a permission failure during removal). -/
inductive FsError where
  | fileNotFound : FsError
  | permissionError : FsError
deriving DecidableEq, Repr

/-- Abstract filesystem state: the directories that exist, and those whose
removal raises a non-ENOENT OSError. -/
structure FS where
  present : List String
  locked : List String
deriving DecidableEq, Repr

/-- Python's `shutil.rmtree(path, ignore_errors)`: attempting to remove a
missing path raises ENOENT, removing a locked path raises another OSError,
and `ignore_errors=True` suppresses every error (per the Python docs:
"If ignore_errors is true, errors resulting from failed removals will be
ignored"). -/
def shutil_rmtree (fs : FS) (path : String) (ignore_errors : Bool) : FS × Option FsError :=
  if path ∈ fs.locked then
    (fs, if ignore_errors then none else some FsError.permissionError)
  else if path ∈ fs.present then
    ({ fs with present := fs.present.filter (fun q => ¬ q = path) }, none)
  else
    (fs, if ignore_errors then none else some FsError.fileNotFound)

/-- The cleanup call the script performs before each invocation
(`shutil.rmtree(args.build_path, ignore_errors=True)`, and likewise for the
`isdb-tests` directory). -/
def cleanBuildDir (fs : FS) (path : String) : FS × Option FsError :=
  shutil_rmtree fs path true

/-! ## Parsed command-line arguments -/

/-- The subcommand: argparse restricts `args.action` to `build` or `test`. -/
inductive Action where
  | build : Action
  | test : Action
deriving DecidableEq, Repr

/-- The string `args.action` holds after parsing (`%s` formatting uses it). -/
def actionName : Action → String
  | Action.build => "build"
  | Action.test => "test"

/-- The argparse namespace after `parser.parse_args`: one field per
command-line option. A `--sanitize` option that was never given is `None`
in Python; it is modelled as the empty list (both are falsy and the script
only iterates over the value or tests membership). -/
structure Args where
  action : Action
  package_path : String
  toolchain : String
  ninja_bin : Option String
  build_path : String
  configuration : String
  sanitize : List String
  sanitize_all : Bool
  verbose : Bool
deriving DecidableEq, Repr

/-! ## Subprocess and event model -/

/-- The external world: for each command line, the exit code
`subprocess.check_call` / `check_output` observes, and the (stripped)
standard output `check_output` returns. -/
structure Oracle where
  exitCode : List String → Nat
  binPath : List String → String

/-- Uncaught Python exceptions terminating the script:
`AssertionError` from a failed `assert`, and
`subprocess.CalledProcessError` carrying the non-zero exit code and the
failing command. -/
inductive Err where
  | assertionError : String → Err
  | calledProcessError : Nat → List String → Err
deriving DecidableEq, Repr

/-- Observable actions of a run, in order: a recursive directory removal, a
spawned command waited on via `check_call` (with the environment passed to
it), a discovery command via `check_output` (with its environment), and a
printed banner line. -/
inductive Event where
  | cleaned : String → Event
  | ran : List String → Env → Event
  | queried : List String → Env → Event
  | banner : String → Event
deriving DecidableEq, Repr

/-! ## The script (`build-script-helper.py`) -/

/-- The flag list built by `get_swiftpm_options` before the platform branch:
package path, build path, configuration, optional `--verbose`, and one
`--sanitize=<name>` flag per requested sanitizer in order. -/
def swiftpmBaseOptions (args : Args) : List String :=
  (["--package-path", args.package_path,
    "--build-path", args.build_path,
    "--configuration", args.configuration]
   ++ (if args.verbose then ["--verbose"] else []))
  ++ args.sanitize.map (fun san => "--sanitize=" ++ san)

/-- The extra flags appended on non-Darwin platforms: C++ include paths for
the Dispatch headers and `<Block.h>` under the toolchain. -/
def xcxxFlags (toolchain : String) : List String :=
  ["-Xcxx", "-I", "-Xcxx", os_path_join2 (os_path_join2 toolchain "lib") "swift",
   "-Xcxx", "-I", "-Xcxx",
   os_path_join2 (os_path_join2 (os_path_join2 toolchain "lib") "swift") "Block"]

/-- `get_swiftpm_options(args)`; `plat` is the value of `platform.system()`. -/
def get_swiftpm_options (plat : String) (args : Args) : List String :=
  if ¬ plat = "Darwin" then swiftpmBaseOptions args ++ xcxxFlags args.toolchain
  else swiftpmBaseOptions args

/-- The value assigned to `UBSAN_OPTIONS` when the undefined-behaviour
sanitizer is selected. -/
def ubsanOptionsValue (args : Args) : String :=
  "halt_on_error=true,suppressions="
    ++ os_path_join2 (os_path_join2 args.package_path "Utilities") "ubsan_supressions.supp"

/-- The environment-variable assignments `handle_invocation` performs on the
shared `os.environ` mapping (`env = os.environ` aliases it) before cleaning
and spawning: the toolchain bin path, optionally the ninja binary, and the
per-sanitizer runtime variables. -/
def invocationEnv (args : Args) (env : Env) : Env :=
  let env := envSet env "INDEXSTOREDB_TOOLCHAIN_BIN_PATH" args.toolchain
  let env :=
    match args.ninja_bin with
    | some nb => envSet env "NINJA_BIN" nb
    | none => env
  let env :=
    if ¬ args.sanitize = [] ∧ "address" ∈ args.sanitize then
      envSet env "ASAN_OPTIONS" "detect_leaks=false"
    else env
  let env :=
    if ¬ args.sanitize = [] ∧ "undefined" ∈ args.sanitize then
      envSet env "UBSAN_OPTIONS" (ubsanOptionsValue args)
    else env
  if ¬ args.sanitize = [] ∧ "thread" ∈ args.sanitize then
    envSet env "INDEXSTOREDB_ENABLED_THREAD_SANITIZER" "1"
  else env

/-- `handle_invocation(swift_exec, args)`: set up the environment, clean the
build directory (`ignore_errors=True`, so the removal never raises), and run
the action; for `test`, first discover the binary path with
`swift build --show-bin-path` and clean `<bin_path>/isdb-tests`, then run
`swift test` with the `--parallel` flag added. Returns the event trace, the
process environment after the call (the assignments persist in
`os.environ`), and the uncaught exception, if any. -/
def handle_invocation (plat : String) (oracle : Oracle) (swift_exec : String)
    (args : Args) (env : Env) : List Event × Env × Option Err :=
  let swiftpm_args := get_swiftpm_options plat args
  let env := invocationEnv args env
  match args.action with
  | Action.build =>
    let cmd := swift_exec :: "build" :: swiftpm_args
    let code := oracle.exitCode cmd
    ([Event.cleaned args.build_path, Event.ran cmd env], env,
      if code = 0 then none else some (Err.calledProcessError code cmd))
  | Action.test =>
    let dcmd := swift_exec :: "build" :: "--show-bin-path" :: swiftpm_args
    let dcode := oracle.exitCode dcmd
    if dcode = 0 then
      let bin_path := oracle.binPath dcmd
      let tests := os_path_join2 bin_path "isdb-tests"
      let cmd := swift_exec :: "test" :: (swiftpm_args ++ ["--parallel"])
      let code := oracle.exitCode cmd
      ([Event.cleaned args.build_path, Event.queried dcmd env,
        Event.cleaned tests, Event.ran cmd env], env,
        if code = 0 then none else some (Err.calledProcessError code cmd))
    else
      ([Event.cleaned args.build_path, Event.queried dcmd env], env,
        some (Err.calledProcessError dcode dcmd))

/-- The path canonicalization in `main` (lines 109–112): all three paths are
made absolute with `os.path.abspath` before any invocation. -/
def canonArgs (cwd : String) (args : Args) : Args :=
  { args with
    package_path := os_path_abspath cwd args.package_path,
    build_path := os_path_abspath cwd args.build_path,
    toolchain := os_path_abspath cwd args.toolchain }

/-- The executable `main` computes: `<toolchain>/bin/swift` when a toolchain
path is present (after `abspath` it always is), else plain `swift`. -/
def swiftExecOf (toolchain : String) : String :=
  if ¬ toolchain.data = [] then os_path_join2 (os_path_join2 toolchain "bin") "swift"
  else "swift"

/-- The banner `main` prints before a sanitizer pass. -/
def sanBanner (a : Action) (tag : String) : String :=
  "=== " ++ actionName a ++ " indexstore-db with " ++ tag ++ " ==="

/-- The body of `main` after argument parsing: the conflicting-flags assert,
path canonicalization, the base invocation, and, under `--sanitize-all`, the
address / thread / (non-Linux only) undefined passes. The Python script
reuses one `args` object, reassigning `sanitize` and `build_path` before
each pass (with `build_path` always derived from the saved base path);
since both fields are reassigned before every pass, each derived request
equals the canonicalized base request with exactly those two fields
replaced, which is how it is written here. A pass that raises stops the
run; the raised exception is returned. -/
def main_run (plat cwd : String) (oracle : Oracle) (args : Args) (env : Env) :
    List Event × Env × Option Err :=
  if ¬ args.sanitize = [] ∧ args.sanitize_all = true then
    ([], env, some (Err.assertionError "cannot combine --sanitize with --sanitize-all"))
  else
    let args := canonArgs cwd args
    let swift_exec := swiftExecOf args.toolchain
    match handle_invocation plat oracle swift_exec args env with
    | (t0, env, some e) => (t0, env, some e)
    | (t0, env, none) =>
      if args.sanitize_all then
        let t0 := t0 ++ [Event.banner (sanBanner args.action "asan")]
        match handle_invocation plat oracle swift_exec
            { args with
              sanitize := ["address"],
              build_path := os_path_join2 args.build_path "test-asan" } env with
        | (t1, env, some e) => (t0 ++ t1, env, some e)
        | (t1, env, none) =>
          let t1 := t1 ++ [Event.banner (sanBanner args.action "tsan")]
          match handle_invocation plat oracle swift_exec
              { args with
                sanitize := ["thread"],
                build_path := os_path_join2 args.build_path "test-tsan" } env with
          | (t2, env, some e) => (t0 ++ t1 ++ t2, env, some e)
          | (t2, env, none) =>
            if ¬ plat = "Linux" then
              let t2 := t2 ++ [Event.banner (sanBanner args.action "ubsan")]
              match handle_invocation plat oracle swift_exec
                  { args with
                    sanitize := ["undefined"],
                    build_path := os_path_join2 args.build_path "test-ubsan" } env with
              | (t3, env, r) => (t0 ++ t1 ++ t2 ++ t3, env, r)
            else (t0 ++ t1 ++ t2, env, none)
      else (t0, env, none)

/-- The exit status of the CPython process running the script: 0 on a normal
return from `main`, 1 when it terminates by an uncaught exception (CPython
exits with status 1 after printing the traceback, whatever exit code a
`CalledProcessError` carries). -/
def processExitCode (r : Option Err) : Nat :=
  match r with
  | none => 0
  | some _ => 1

/-! ## Trace observations -/

/-- Keep only the interesting pass structure of a trace: banners (`Sum.inl`)
and spawned `check_call` commands (`Sum.inr`). -/
def eventTag : Event → Option (Sum String (List String))
  | Event.banner msg => some (Sum.inl msg)
  | Event.ran cmd _ => some (Sum.inr cmd)
  | _ => none

/-- The command spawned by an event, if any. -/
def eventCmd : Event → Option (List String)
  | Event.ran cmd _ => some cmd
  | Event.queried cmd _ => some cmd
  | _ => none

/-- The environments passed to the `check_call` invocations of a trace,
in order. -/
def runEnvs (t : List Event) : List Env :=
  t.filterMap (fun e =>
    match e with
    | Event.ran _ v => some v
    | _ => none)

/-- The exit code carried by a `CalledProcessError`, if the run failed
that way. -/
def errCode : Option Err → Option Nat
  | some (Err.calledProcessError c _) => some c
  | _ => none

/-- The command `handle_invocation` runs for the main action of a pass. -/
def mainCmd (swift_exec plat : String) (args : Args) : List String :=
  match args.action with
  | Action.build => swift_exec :: "build" :: get_swiftpm_options plat args
  | Action.test => swift_exec :: "test" :: (get_swiftpm_options plat args ++ ["--parallel"])

/-- Does a flag string carry a sanitizer request, i.e. start with
`--sanitize=`? -/
def isSanitizeFlag (f : String) : Bool := "--sanitize=".data.isPrefixOf f.data

/-- The environment variable each sanitizer's runtime configuration lives in. -/
def sanitizerEnvKey (s : String) : String :=
  if s = "address" then "ASAN_OPTIONS"
  else if s = "thread" then "INDEXSTOREDB_ENABLED_THREAD_SANITIZER"
  else "UBSAN_OPTIONS"

/-- The value documented for each sanitizer's runtime variable. -/
def sanitizerEnvValue (args : Args) (s : String) : String :=
  if s = "address" then "detect_leaks=false"
  else if s = "thread" then "1"
  else ubsanOptionsValue args

/-- All sanitizer-runtime environment variables the script may set. -/
def sanitizerEnvKeys : List String :=
  ["ASAN_OPTIONS", "UBSAN_OPTIONS", "INDEXSTOREDB_ENABLED_THREAD_SANITIZER"]

/-! ## Environment lemmas -/

theorem envGet_envSet_same (e : Env) (k v : String) : envGet (envSet e k v) k = some v := by
  induction e with
  | nil => simp [envGet, envSet]
  | cons hd tl ih =>
    by_cases h : hd.1 = k
    · calc envGet (envSet (hd :: tl) k v) k
          = envGet (envSet tl k v) k := by
            simp [envGet, envSet, List.filter_cons, h]
        _ = some v := ih
    · calc envGet (envSet (hd :: tl) k v) k
          = envGet (envSet tl k v) k := by
            simp [envGet, envSet, List.filter_cons, List.find?_cons, h]
        _ = some v := ih

theorem envGet_envSet_other (e : Env) (k v k' : String) (h : ¬ k' = k) :
    envGet (envSet e k v) k' = envGet e k' := by
  induction e with
  | nil =>
    simp only [envGet, envSet, List.filter_nil, List.nil_append, List.find?_cons,
      List.find?_nil]
    have hk : (k == k') = false := by
      simp only [beq_eq_false_iff_ne, ne_eq]
      exact fun hx => h hx.symm
    simp [hk]
  | cons hd tl ih =>
    by_cases h1 : hd.1 = k
    · have h2 : ¬ hd.1 = k' := by rw [h1]; exact fun hx => h hx.symm
      calc envGet (envSet (hd :: tl) k v) k'
          = envGet (envSet tl k v) k' := by
            simp [envGet, envSet, List.filter_cons, h1]
        _ = envGet tl k' := ih
        _ = envGet (hd :: tl) k' := by
            simp [envGet, List.find?_cons, h2]
    · by_cases h2 : hd.1 = k'
      · simp [envGet, envSet, List.filter_cons, List.find?_cons, h1, h2, h]
      · calc envGet (envSet (hd :: tl) k v) k'
            = envGet (envSet tl k v) k' := by
              simp [envGet, envSet, List.filter_cons, List.find?_cons, h1, h2]
          _ = envGet tl k' := ih
          _ = envGet (hd :: tl) k' := by
              simp [envGet, List.find?_cons, h2]

theorem envGet_invocationEnv_asan (args : Args) (e : Env) :
    envGet (invocationEnv args e) "ASAN_OPTIONS" =
      if ¬ args.sanitize = [] ∧ "address" ∈ args.sanitize then some "detect_leaks=false"
      else envGet e "ASAN_OPTIONS" := by
  unfold invocationEnv
  rcases args.ninja_bin with _ | nb <;>
    split_ifs <;>
    simp_all [envGet_envSet_same, envGet_envSet_other]

theorem envGet_invocationEnv_ubsan (args : Args) (e : Env) :
    envGet (invocationEnv args e) "UBSAN_OPTIONS" =
      if ¬ args.sanitize = [] ∧ "undefined" ∈ args.sanitize then some (ubsanOptionsValue args)
      else envGet e "UBSAN_OPTIONS" := by
  unfold invocationEnv
  rcases args.ninja_bin with _ | nb <;>
    split_ifs <;>
    simp_all [envGet_envSet_same, envGet_envSet_other]

theorem envGet_invocationEnv_tsan (args : Args) (e : Env) :
    envGet (invocationEnv args e) "INDEXSTOREDB_ENABLED_THREAD_SANITIZER" =
      if ¬ args.sanitize = [] ∧ "thread" ∈ args.sanitize then some "1"
      else envGet e "INDEXSTOREDB_ENABLED_THREAD_SANITIZER" := by
  unfold invocationEnv
  rcases args.ninja_bin with _ | nb <;>
    split_ifs <;>
    simp_all [envGet_envSet_same, envGet_envSet_other]

/-! ## Lemmas about a single invocation -/

theorem handle_invocation_env (plat : String) (oracle : Oracle) (se : String)
    (args : Args) (env : Env) :
    (handle_invocation plat oracle se args env).2.1 = invocationEnv args env := by
  cases hact : args.action <;> simp [handle_invocation, hact] <;> split_ifs <;> rfl

theorem handle_invocation_trace_head (plat : String) (oracle : Oracle) (se : String)
    (args : Args) (env : Env) :
    (handle_invocation plat oracle se args env).1.head? = some (Event.cleaned args.build_path) := by
  cases hact : args.action <;> simp [handle_invocation, hact] <;> split_ifs <;> rfl

theorem handle_invocation_trace_ne_nil (plat : String) (oracle : Oracle) (se : String)
    (args : Args) (env : Env) :
    ¬ (handle_invocation plat oracle se args env).1 = [] := by
  have h := handle_invocation_trace_head plat oracle se args env
  intro hnil
  rw [hnil] at h
  simp at h

theorem handle_invocation_ok (plat : String) (oracle : Oracle) (se : String)
    (args : Args) (env : Env) (h : ∀ c, oracle.exitCode c = 0) :
    ∃ T, handle_invocation plat oracle se args env = (T, invocationEnv args env, none) ∧
      T.filterMap eventTag = [Sum.inr (mainCmd se plat args)] ∧
      runEnvs T = [invocationEnv args env] ∧
      T.head? = some (Event.cleaned args.build_path) ∧
      ¬ T = [] := by
  cases hact : args.action with
  | build =>
    refine ⟨[Event.cleaned args.build_path,
             Event.ran (mainCmd se plat args) (invocationEnv args env)], ?_, ?_, ?_, ?_, ?_⟩
    · simp [handle_invocation, hact, h, mainCmd]
    · simp [List.filterMap, eventTag]
    · simp [runEnvs, List.filterMap]
    · rfl
    · simp
  | test =>
    refine ⟨[Event.cleaned args.build_path,
             Event.queried (se :: "build" :: "--show-bin-path" :: get_swiftpm_options plat args)
               (invocationEnv args env),
             Event.cleaned (os_path_join2
               (oracle.binPath (se :: "build" :: "--show-bin-path" :: get_swiftpm_options plat args))
               "isdb-tests"),
             Event.ran (mainCmd se plat args) (invocationEnv args env)], ?_, ?_, ?_, ?_, ?_⟩
    · simp [handle_invocation, hact, h, mainCmd]
    · simp [List.filterMap, eventTag]
    · simp [runEnvs, List.filterMap]
    · rfl
    · simp

theorem handle_invocation_err (plat : String) (oracle : Oracle) (se : String)
    (args : Args) (env : Env) (c : Nat) (cmd : List String)
    (h : (handle_invocation plat oracle se args env).2.2 = some (Err.calledProcessError c cmd)) :
    ¬ c = 0 ∧
      ((handle_invocation plat oracle se args env).1.getLast?.bind eventCmd = some cmd) := by
  cases hact : args.action with
  | build =>
    simp only [handle_invocation, hact] at h ⊢
    by_cases hc : oracle.exitCode (se :: "build" :: get_swiftpm_options plat args) = 0
    · rw [if_pos hc] at h; simp at h
    · rw [if_neg hc] at h
      simp only [Option.some.injEq, Err.calledProcessError.injEq] at h
      obtain ⟨hc1, hc2⟩ := h
      subst hc2
      exact ⟨by rw [← hc1]; exact hc, by simp [eventCmd]⟩
  | test =>
    simp only [handle_invocation, hact] at h ⊢
    by_cases hd : oracle.exitCode (se :: "build" :: "--show-bin-path" :: get_swiftpm_options plat args) = 0
    · rw [if_pos hd] at h ⊢
      by_cases hc : oracle.exitCode (se :: "test" :: (get_swiftpm_options plat args ++ ["--parallel"])) = 0
      · rw [if_pos hc] at h; simp at h
      · rw [if_neg hc] at h
        simp only [Option.some.injEq, Err.calledProcessError.injEq] at h
        obtain ⟨hc1, hc2⟩ := h
        subst hc2
        exact ⟨by rw [← hc1]; exact hc, by simp [eventCmd]⟩
    · rw [if_neg hd] at h ⊢
      simp only [Option.some.injEq, Err.calledProcessError.injEq] at h
      obtain ⟨hc1, hc2⟩ := h
      subst hc2
      exact ⟨by rw [← hc1]; exact hd, by simp [eventCmd]⟩

/-! ## Path lemmas -/

theorem isAbs_os_path_join2 (a b : String) (h : isAbs a = true) :
    isAbs (os_path_join2 a b) = true := by
  unfold os_path_join2
  by_cases hb : isAbsChars b.data
  · rw [if_pos hb]; exact hb
  · rw [if_neg hb]
    have ha : ¬ a.data = [] := by
      intro h0
      unfold isAbs isAbsChars at h
      rw [h0] at h
      simp at h
    rw [if_neg ha]
    obtain ⟨c, t, hct⟩ : ∃ c t, a.data = c :: t := by
      cases hd : a.data with
      | nil => exact absurd hd ha
      | cons c t => exact ⟨c, t, rfl⟩
    have hc : (c == '/') = true := by
      unfold isAbs isAbsChars at h
      rw [hct] at h
      exact h
    by_cases hl : a.data.getLast? = some '/'
    · rw [if_pos hl]
      show isAbsChars (a.data ++ b.data) = true
      rw [hct]
      simpa [isAbsChars] using hc
    · rw [if_neg hl]
      show isAbsChars (a.data ++ '/' :: b.data) = true
      rw [hct]
      simpa [isAbsChars] using hc

theorem slashCount_cons_slash (t : List Char) :
    slashCount ('/' :: t) = 1 ∨ slashCount ('/' :: t) = 2 := by
  rcases t with _ | ⟨c2, _ | ⟨c3, t3⟩⟩
  · left; simp [slashCount]
  · by_cases h : c2 = '/' <;> simp [slashCount, h]
  · by_cases h2 : c2 = '/' <;> by_cases h3 : c3 = '/' <;> simp [slashCount, h2, h3]

theorem isAbsChars_normpathChars (l : List Char) (h : isAbsChars l = true) :
    isAbsChars (normpathChars l) = true := by
  obtain ⟨c, t, rfl⟩ : ∃ c t, l = c :: t := by
    cases l with
    | nil => simp [isAbsChars] at h
    | cons c t => exact ⟨c, t, rfl⟩
  have hc : c = '/' := by simpa [isAbsChars] using h
  subst hc
  simp only [normpathChars]
  rw [if_neg (by simp)]
  rcases slashCount_cons_slash t with hk | hk <;>
    rw [hk] <;>
    simp [List.replicate, isAbsChars]

theorem isAbs_os_path_abspath (cwd p : String) (h : isAbs cwd = true) :
    isAbs (os_path_abspath cwd p) = true := by
  unfold os_path_abspath
  by_cases hp : isAbs p
  · rw [if_pos hp]
    exact isAbsChars_normpathChars p.data hp
  · rw [if_neg hp]
    exact isAbsChars_normpathChars _ (isAbs_os_path_join2 cwd p h)

/-! ## Flag-string lemmas -/

theorem isPrefixOf_append_self (l t : List Char) : l.isPrefixOf (l ++ t) = true := by
  induction l with
  | nil => simp [List.isPrefixOf]
  | cons c cs ih => simp [List.isPrefixOf, ih]

theorem isSanitizeFlag_sanitize (s : String) : isSanitizeFlag ("--sanitize=" ++ s) = true := by
  unfold isSanitizeFlag
  rw [String.data_append]
  exact isPrefixOf_append_self _ _

theorem isSanitizeFlag_of_isAbs (p : String) (h : isAbs p = true) : isSanitizeFlag p = false := by
  obtain ⟨t, hp⟩ : ∃ t, p.data = '/' :: t := by
    cases hd : p.data with
    | nil =>
      unfold isAbs isAbsChars at h
      rw [hd] at h
      simp at h
    | cons c t =>
      have hc : c = '/' := by
        unfold isAbs isAbsChars at h
        rw [hd] at h
        simpa using h
      exact ⟨t, by rw [hc]⟩
  unfold isSanitizeFlag
  rw [hp]
  rfl

theorem sanitize_flag_ne_xcxx (s : String) : ¬ ("--sanitize=" ++ s) = "-Xcxx" := by
  intro hx
  have hlen : ("--sanitize=" ++ s).data.length = ("-Xcxx" : String).data.length := by rw [hx]
  rw [String.data_append, List.length_append] at hlen
  have h1 : "--sanitize=".data.length = 11 := rfl
  have h2 : ("-Xcxx" : String).data.length = 5 := rfl
  rw [h1, h2] at hlen
  omega

theorem ne_xcxx_of_isAbs (p : String) (h : isAbs p = true) : ¬ p = "-Xcxx" := by
  intro hx
  subst hx
  revert h
  decide

theorem os_path_join2_data_sep (a b : String) (hne : ¬ a.data = [])
    (hl : ¬ a.data.getLast? = some '/') (hb : ¬ isAbsChars b.data = true) :
    (os_path_join2 a b).data = a.data ++ '/' :: b.data := by
  unfold os_path_join2
  rw [if_neg hb, if_neg hne, if_neg hl]

theorem ubsan_value_ends_with (args : Args) :
    "Utilities/ubsan_supressions.supp".data <:+ (ubsanOptionsValue args).data := by
  obtain ⟨x, hx⟩ : ∃ x, (os_path_join2 args.package_path "Utilities").data
      = x ++ "Utilities".data := by
    unfold os_path_join2
    rw [if_neg (by decide)]
    by_cases hpp : args.package_path.data = []
    · rw [if_pos hpp]; exact ⟨[], rfl⟩
    · rw [if_neg hpp]
      by_cases hl : args.package_path.data.getLast? = some '/'
      · rw [if_pos hl]; exact ⟨args.package_path.data, rfl⟩
      · rw [if_neg hl]; exact ⟨args.package_path.data ++ ['/'], by simp⟩
  have hYne : ¬ (os_path_join2 args.package_path "Utilities").data = [] := by
    rw [hx]
    simp
  have hYlast : (os_path_join2 args.package_path "Utilities").data.getLast? = some 's' := by
    rw [hx, List.getLast?_append_of_ne_nil _ (by decide)]
    rfl
  unfold ubsanOptionsValue
  rw [String.data_append]
  apply List.IsSuffix.trans ?_ (List.suffix_append _ _)
  show "Utilities/ubsan_supressions.supp".data <:+
    (os_path_join2 (os_path_join2 args.package_path "Utilities") "ubsan_supressions.supp").data
  rw [os_path_join2_data_sep _ _ hYne (by rw [hYlast]; decide) (by decide)]
  have hcat : "Utilities/ubsan_supressions.supp".data
      = "Utilities".data ++ '/' :: "ubsan_supressions.supp".data := by decide
  exact ⟨x, by rw [hcat, hx, List.append_assoc]⟩

/-! ## Flag-list lemmas -/

theorem filter_sanitize_swiftpmBaseOptions (args : Args)
    (h3 : isAbs args.package_path = true) (h4 : isAbs args.build_path = true)
    (h6 : isSanitizeFlag args.configuration = false) :
    (swiftpmBaseOptions args).filter isSanitizeFlag
      = args.sanitize.map (fun san => "--sanitize=" ++ san) := by
  unfold swiftpmBaseOptions
  rw [List.filter_append, List.filter_append]
  have l1 : isSanitizeFlag "--package-path" = false := rfl
  have l2 : isSanitizeFlag "--build-path" = false := rfl
  have l3 : isSanitizeFlag "--configuration" = false := rfl
  have l4 : isSanitizeFlag "--verbose" = false := rfl
  have e1 : (["--package-path", args.package_path, "--build-path", args.build_path,
      "--configuration", args.configuration]).filter isSanitizeFlag = [] := by
    simp [List.filter_cons, l1, l2, l3, isSanitizeFlag_of_isAbs _ h3,
      isSanitizeFlag_of_isAbs _ h4, h6]
  have e2 : (if args.verbose then ["--verbose"] else []).filter isSanitizeFlag = [] := by
    by_cases hv : args.verbose <;> simp [hv, List.filter_cons, l4]
  have e3 : (args.sanitize.map (fun san => "--sanitize=" ++ san)).filter isSanitizeFlag
      = args.sanitize.map (fun san => "--sanitize=" ++ san) := by
    rw [List.filter_eq_self]
    intro a ha
    obtain ⟨s', hs', rfl⟩ := List.mem_map.mp ha
    exact isSanitizeFlag_sanitize s'
  rw [e1, e2, e3, List.nil_append, List.nil_append]

theorem filter_sanitize_xcxxFlags (tc : String) (h5 : isAbs tc = true) :
    (xcxxFlags tc).filter isSanitizeFlag = [] := by
  unfold xcxxFlags
  have j1 : isAbs (os_path_join2 (os_path_join2 tc "lib") "swift") = true :=
    isAbs_os_path_join2 _ _ (isAbs_os_path_join2 _ _ h5)
  have j2 : isAbs (os_path_join2 (os_path_join2 (os_path_join2 tc "lib") "swift") "Block")
      = true := isAbs_os_path_join2 _ _ j1
  have lx : isSanitizeFlag "-Xcxx" = false := rfl
  have li : isSanitizeFlag "-I" = false := rfl
  simp [List.filter_cons, lx, li, isSanitizeFlag_of_isAbs _ j1, isSanitizeFlag_of_isAbs _ j2]

theorem not_mem_xcxx_swiftpmBaseOptions (args : Args)
    (h3 : isAbs args.package_path = true) (h4 : isAbs args.build_path = true)
    (h6 : ¬ args.configuration = "-Xcxx") :
    ¬ "-Xcxx" ∈ swiftpmBaseOptions args := by
  intro hm
  unfold swiftpmBaseOptions at hm
  rcases List.mem_append.mp hm with hm1 | hm2
  · rcases List.mem_append.mp hm1 with hm3 | hm4
    · simp only [List.mem_cons, List.not_mem_nil, or_false] at hm3
      rcases hm3 with h | h | h | h | h | h
      · exact absurd h (by decide)
      · exact ne_xcxx_of_isAbs _ h3 h.symm
      · exact absurd h (by decide)
      · exact ne_xcxx_of_isAbs _ h4 h.symm
      · exact absurd h (by decide)
      · exact h6 h.symm
    · by_cases hv : args.verbose
      · rw [if_pos hv] at hm4
        simp only [List.mem_singleton] at hm4
        exact absurd hm4 (by decide)
      · rw [if_neg hv] at hm4
        exact List.not_mem_nil _ hm4
  · obtain ⟨s, hs, hfs⟩ := List.mem_map.mp hm2
    exact sanitize_flag_ne_xcxx s hfs

/-! ## Claim C7 -/

/-- C7: on every non-Darwin platform, regardless of sanitizer selection, the
translated flag list ends with the two extra compiler-search-path flag pairs
pointing at `<toolchain>/lib/swift` and `<toolchain>/lib/swift/Block`
(appended, never prepended); on Darwin, those flags are absent from the
flag list. -/
theorem c7_xcxx_flags_platform_conditional (plat : String) (args : Args)
    (h3 : isAbs args.package_path = true) (h4 : isAbs args.build_path = true)
    (h6 : ¬ args.configuration = "-Xcxx") :
    (¬ plat = "Darwin" →
      get_swiftpm_options plat args = swiftpmBaseOptions args ++ xcxxFlags args.toolchain) ∧
    (plat = "Darwin" → get_swiftpm_options plat args = swiftpmBaseOptions args) ∧
    ¬ "-Xcxx" ∈ get_swiftpm_options "Darwin" args := by
  refine ⟨?_, ?_, ?_⟩
  · intro hp
    unfold get_swiftpm_options
    rw [if_pos hp]
  · intro hp
    unfold get_swiftpm_options
    rw [if_neg (fun hc => hc hp)]
  · unfold get_swiftpm_options
    rw [if_neg (fun hc => hc rfl)]
    exact not_mem_xcxx_swiftpmBaseOptions args h3 h4 h6

/-- Witness for C7 at a concrete request: both platform branches and the
absence of `-Xcxx` on Darwin, obtained by applying the claim theorem. -/
theorem c7_xcxx_flags_platform_conditional_witness :
    (¬ "Linux" = "Darwin" →
      get_swiftpm_options "Linux"
          { action := Action.build, package_path := "/p", toolchain := "/t",
            ninja_bin := none, build_path := "/b", configuration := "debug",
            sanitize := [], sanitize_all := false, verbose := false }
        = swiftpmBaseOptions
            { action := Action.build, package_path := "/p", toolchain := "/t",
              ninja_bin := none, build_path := "/b", configuration := "debug",
              sanitize := [], sanitize_all := false, verbose := false }
          ++ xcxxFlags "/t") ∧
    (( "Linux" : String) = "Darwin" →
      get_swiftpm_options "Linux"
          { action := Action.build, package_path := "/p", toolchain := "/t",
            ninja_bin := none, build_path := "/b", configuration := "debug",
            sanitize := [], sanitize_all := false, verbose := false }
        = swiftpmBaseOptions
            { action := Action.build, package_path := "/p", toolchain := "/t",
              ninja_bin := none, build_path := "/b", configuration := "debug",
              sanitize := [], sanitize_all := false, verbose := false }) ∧
    ¬ "-Xcxx" ∈ get_swiftpm_options "Darwin"
        { action := Action.build, package_path := "/p", toolchain := "/t",
          ninja_bin := none, build_path := "/b", configuration := "debug",
          sanitize := [], sanitize_all := false, verbose := false } :=
  c7_xcxx_flags_platform_conditional "Linux"
    { action := Action.build, package_path := "/p", toolchain := "/t",
      ninja_bin := none, build_path := "/b", configuration := "debug",
      sanitize := [], sanitize_all := false, verbose := false }
    (by decide) (by decide) (by decide)

/-! ## Claim C5 (corrected) -/

/-- C5 counterexample: the claim says a filesystem error other than
"path does not exist" is propagated as fatal during cleanup. Take a
filesystem where removing `/b` raises a non-ENOENT OSError (first conjunct:
with errors not ignored, removal of `/b` reports `permissionError`, not
`fileNotFound`). The script's cleanup call (`ignore_errors=True`)
nevertheless reports no error at all — nothing is propagated. -/
theorem c5_counterexample :
    shutil_rmtree ⟨[], ["/b"]⟩ "/b" false = (⟨[], ["/b"]⟩, some FsError.permissionError) ∧
    cleanBuildDir ⟨[], ["/b"]⟩ "/b" = (⟨[], ["/b"]⟩, none) := by
  decide

/-- C5 (amended): during every pre-invocation cleanup, every filesystem
error — "path does not exist" and any other error alike — is ignored
(`shutil.rmtree` is invoked with `ignore_errors=True`); no filesystem error
is ever propagated, and there is no retry. -/
theorem c5_cleanup_ignores_all_errors (fs : FS) (p : String) :
    (cleanBuildDir fs p).2 = none := by
  unfold cleanBuildDir shutil_rmtree
  split_ifs <;> simp_all

/-! ## Claim C9 -/

/-- C9: the cleanup operation is idempotent on absence — invoking the
build-directory cleanup twice in a row on an already-absent build directory
produces no error on either invocation (and leaves the filesystem
unchanged). -/
theorem c9_cleanup_idempotent_on_absence (fs : FS) (p : String)
    (h1 : ¬ p ∈ fs.present) (h2 : ¬ p ∈ fs.locked) :
    cleanBuildDir fs p = (fs, none) ∧
    cleanBuildDir (cleanBuildDir fs p).1 p = (fs, none) := by
  have h : cleanBuildDir fs p = (fs, none) := by
    unfold cleanBuildDir shutil_rmtree
    rw [if_neg h2, if_neg h1, if_pos rfl]
  exact ⟨h, by rw [h]; exact h⟩

/-- Witness for C9 on a concrete filesystem where `/b` is absent. -/
theorem c9_cleanup_idempotent_on_absence_witness :
    cleanBuildDir ⟨["/x"], []⟩ "/b" = (⟨["/x"], []⟩, none) ∧
    cleanBuildDir (cleanBuildDir ⟨["/x"], []⟩ "/b").1 "/b" = (⟨["/x"], []⟩, none) :=
  c9_cleanup_idempotent_on_absence ⟨["/x"], []⟩ "/b" (by decide) (by decide)

/-! ## Claim C6 -/

/-- C6: for every request in which the sanitizer set is non-empty and the
sanitize-all flag is also set, the run reports a configuration error (the
failed assertion) and terminates with an empty event trace — before any
subprocess is spawned and before any filesystem cleanup occurs — leaving
the environment untouched. -/
theorem c6_conflicting_flags_abort (plat cwd : String) (oracle : Oracle) (args : Args)
    (env : Env) (h1 : ¬ args.sanitize = []) (h2 : args.sanitize_all = true) :
    main_run plat cwd oracle args env =
      ([], env, some (Err.assertionError "cannot combine --sanitize with --sanitize-all")) := by
  unfold main_run
  rw [if_pos ⟨h1, h2⟩]

/-- Witness for C6 at a concrete conflicting request. -/
theorem c6_conflicting_flags_abort_witness :
    main_run "Darwin" "/" ⟨fun _ => 0, fun _ => ""⟩
        { action := Action.build, package_path := "/p", toolchain := "/t",
          ninja_bin := none, build_path := "/b", configuration := "debug",
          sanitize := ["address"], sanitize_all := true, verbose := false } [] =
      ([], [], some (Err.assertionError "cannot combine --sanitize with --sanitize-all")) :=
  c6_conflicting_flags_abort "Darwin" "/" ⟨fun _ => 0, fun _ => ""⟩
    { action := Action.build, package_path := "/p", toolchain := "/t",
      ninja_bin := none, build_path := "/b", configuration := "debug",
      sanitize := ["address"], sanitize_all := true, verbose := false } []
    (by decide) rfl

/-! ## Claim C4 -/

/-- Concrete request used by witnesses: absolute paths, debug configuration,
no ninja path, not verbose. -/
def sampleArgs (act : Action) (san : List String) (sanAll : Bool) : Args :=
  { action := act, package_path := "/p", toolchain := "/t", ninja_bin := none,
    build_path := "/b", configuration := "debug", sanitize := san,
    sanitize_all := sanAll, verbose := false }

/-- C4: for any single sanitizer name in {address, thread, undefined}, the
produced flag list contains exactly one `--sanitize=<name>` entry and no
other sanitize flag; the environment overlay applied for the invocation
sets exactly the variable documented for that sanitizer — address disables
leak detection (`ASAN_OPTIONS=detect_leaks=false`), thread sets the
thread-sanitizer feature flag to `1`, undefined sets halt-on-error plus a
suppressions path ending with `Utilities/ubsan_supressions.supp` — and
leaves the runtime variable of every other sanitizer unchanged. -/
theorem c4_single_sanitizer_flags_and_env (plat : String) (args : Args) (env : Env)
    (s : String) (h1 : args.sanitize = [s])
    (h2 : s = "address" ∨ s = "thread" ∨ s = "undefined")
    (h3 : isAbs args.package_path = true) (h4 : isAbs args.build_path = true)
    (h5 : isAbs args.toolchain = true)
    (h6 : isSanitizeFlag args.configuration = false) :
    (get_swiftpm_options plat args).filter isSanitizeFlag = ["--sanitize=" ++ s] ∧
    envGet (invocationEnv args env) (sanitizerEnvKey s) = some (sanitizerEnvValue args s) ∧
    (∀ k, k ∈ sanitizerEnvKeys → ¬ k = sanitizerEnvKey s →
      envGet (invocationEnv args env) k = envGet env k) ∧
    (s = "undefined" →
      "Utilities/ubsan_supressions.supp".data <:+ (sanitizerEnvValue args s).data) := by
  refine ⟨?_, ?_, ?_, ?_⟩
  · unfold get_swiftpm_options
    split_ifs with hp
    · rw [filter_sanitize_swiftpmBaseOptions args h3 h4 h6, h1]
      rfl
    · rw [List.filter_append, filter_sanitize_swiftpmBaseOptions args h3 h4 h6,
        filter_sanitize_xcxxFlags _ h5, List.append_nil, h1]
      rfl
  · rcases h2 with rfl | rfl | rfl
    · have hk : sanitizerEnvKey "address" = "ASAN_OPTIONS" := rfl
      have hv : sanitizerEnvValue args "address" = "detect_leaks=false" := rfl
      rw [hk, hv, envGet_invocationEnv_asan, if_pos (by rw [h1]; exact ⟨by simp, by simp⟩)]
    · have hk : sanitizerEnvKey "thread" = "INDEXSTOREDB_ENABLED_THREAD_SANITIZER" := rfl
      have hv : sanitizerEnvValue args "thread" = "1" := rfl
      rw [hk, hv, envGet_invocationEnv_tsan, if_pos (by rw [h1]; exact ⟨by simp, by simp⟩)]
    · have hk : sanitizerEnvKey "undefined" = "UBSAN_OPTIONS" := rfl
      have hv : sanitizerEnvValue args "undefined" = ubsanOptionsValue args := rfl
      rw [hk, hv, envGet_invocationEnv_ubsan, if_pos (by rw [h1]; exact ⟨by simp, by simp⟩)]
  · intro k hk hkne
    simp only [sanitizerEnvKeys, List.mem_cons, List.not_mem_nil, or_false] at hk
    rcases h2 with rfl | rfl | rfl <;> rcases hk with rfl | rfl | rfl <;>
      first
        | exact absurd (by rfl) hkne
        | rw [envGet_invocationEnv_asan, if_neg (by rw [h1]; decide)]
        | rw [envGet_invocationEnv_ubsan, if_neg (by rw [h1]; decide)]
        | rw [envGet_invocationEnv_tsan, if_neg (by rw [h1]; decide)]
  · intro hs
    rcases h2 with rfl | rfl | rfl
    · exact absurd hs (by decide)
    · exact absurd hs (by decide)
    · have hv : sanitizerEnvValue args "undefined" = ubsanOptionsValue args := rfl
      rw [hv]
      exact ubsan_value_ends_with args

/-- Witness for C4 at a concrete undefined-sanitizer request, with an
inherited environment that already carries an unrelated ASAN variable. -/
theorem c4_single_sanitizer_flags_and_env_witness :
    (get_swiftpm_options "Linux" (sampleArgs Action.build ["undefined"] false)).filter
        isSanitizeFlag = ["--sanitize=" ++ "undefined"] ∧
    envGet (invocationEnv (sampleArgs Action.build ["undefined"] false) [("ASAN_OPTIONS", "x")])
        (sanitizerEnvKey "undefined")
      = some (sanitizerEnvValue (sampleArgs Action.build ["undefined"] false) "undefined") ∧
    envGet (invocationEnv (sampleArgs Action.build ["undefined"] false) [("ASAN_OPTIONS", "x")])
        "ASAN_OPTIONS"
      = envGet [("ASAN_OPTIONS", "x")] "ASAN_OPTIONS" ∧
    "Utilities/ubsan_supressions.supp".data <:+
      (sanitizerEnvValue (sampleArgs Action.build ["undefined"] false) "undefined").data := by
  have h := c4_single_sanitizer_flags_and_env "Linux" (sampleArgs Action.build ["undefined"] false)
    [("ASAN_OPTIONS", "x")] "undefined" rfl (by decide) (by decide) (by decide) (by decide)
    (by decide)
  exact ⟨h.1, h.2.1, h.2.2.1 "ASAN_OPTIONS" (by decide) (by decide), h.2.2.2 rfl⟩

/-! ## Claim C8 -/

/-- Oracle used by witnesses: every spawned command succeeds and discovery
reports `/bp/debug`. -/
def sampleOracle : Oracle := ⟨fun _ => 0, fun _ => "/bp/debug"⟩

/-- C8: for every Test-action invocation, the step order is strict: the
build directory is removed first; then a discovery sub-invocation of the
build tool's show-binary-output-path mode runs with the translated flags
and without the `--parallel` test-only flag; then the `isdb-tests`
subdirectory under the discovered path is removed; and only then is the
test verb invoked with the translated flags plus the parallel-test flag. -/
theorem c8_test_step_order (plat : String) (oracle : Oracle) (se : String)
    (args : Args) (env : Env) (ha : args.action = Action.test)
    (hd : oracle.exitCode (se :: "build" :: "--show-bin-path" :: get_swiftpm_options plat args)
      = 0) :
    (handle_invocation plat oracle se args env).1 =
      [Event.cleaned args.build_path,
       Event.queried (se :: "build" :: "--show-bin-path" :: get_swiftpm_options plat args)
         (invocationEnv args env),
       Event.cleaned (os_path_join2
         (oracle.binPath (se :: "build" :: "--show-bin-path" :: get_swiftpm_options plat args))
         "isdb-tests"),
       Event.ran (se :: "test" :: (get_swiftpm_options plat args ++ ["--parallel"]))
         (invocationEnv args env)] := by
  simp only [handle_invocation, ha]
  rw [if_pos hd]

/-- Witness for C8 at a concrete test request with an all-success oracle. -/
theorem c8_test_step_order_witness :
    (handle_invocation "Darwin" sampleOracle "/t/bin/swift"
        (sampleArgs Action.test [] false) []).1 =
      [Event.cleaned (sampleArgs Action.test [] false).build_path,
       Event.queried ("/t/bin/swift" :: "build" :: "--show-bin-path" ::
           get_swiftpm_options "Darwin" (sampleArgs Action.test [] false))
         (invocationEnv (sampleArgs Action.test [] false) []),
       Event.cleaned (os_path_join2
         (sampleOracle.binPath ("/t/bin/swift" :: "build" :: "--show-bin-path" ::
           get_swiftpm_options "Darwin" (sampleArgs Action.test [] false)))
         "isdb-tests"),
       Event.ran ("/t/bin/swift" :: "test" ::
           (get_swiftpm_options "Darwin" (sampleArgs Action.test [] false) ++ ["--parallel"]))
         (invocationEnv (sampleArgs Action.test [] false) [])] :=
  c8_test_step_order "Darwin" sampleOracle "/t/bin/swift" (sampleArgs Action.test [] false) []
    rfl rfl

/-! ## Claim C1 -/

/-- C1: when sanitize-all mode is requested (and all invocations succeed),
the base invocation is executed exactly once first, and then for address,
thread, and — on non-Linux platforms only — undefined, in that fixed order,
a derived invocation runs whose sanitizer set is exactly that one sanitizer
and whose build path is `<basePath>/test-asan`, `<basePath>/test-tsan`,
`<basePath>/test-ubsan` respectively, all other fields copied from the base
request, with a banner printed before each pass; on Linux exactly two
derived invocations occur and the undefined pass is skipped, on any other
platform exactly three occur. -/
theorem c1_sanitize_all_matrix (plat cwd : String) (oracle : Oracle) (args : Args) (env : Env)
    (hc : ∀ c, oracle.exitCode c = 0) (hs : args.sanitize = [])
    (ha : args.sanitize_all = true) :
    List.filterMap eventTag (main_run plat cwd oracle args env).1 =
      [Sum.inr (mainCmd (swiftExecOf (canonArgs cwd args).toolchain) plat (canonArgs cwd args)),
       Sum.inl (sanBanner args.action "asan"),
       Sum.inr (mainCmd (swiftExecOf (canonArgs cwd args).toolchain) plat
         { canonArgs cwd args with
           sanitize := ["address"],
           build_path := os_path_join2 (canonArgs cwd args).build_path "test-asan" }),
       Sum.inl (sanBanner args.action "tsan"),
       Sum.inr (mainCmd (swiftExecOf (canonArgs cwd args).toolchain) plat
         { canonArgs cwd args with
           sanitize := ["thread"],
           build_path := os_path_join2 (canonArgs cwd args).build_path "test-tsan" })]
      ++ (if ¬ plat = "Linux" then
            [Sum.inl (sanBanner args.action "ubsan"),
             Sum.inr (mainCmd (swiftExecOf (canonArgs cwd args).toolchain) plat
               { canonArgs cwd args with
                 sanitize := ["undefined"],
                 build_path := os_path_join2 (canonArgs cwd args).build_path "test-ubsan" })]
          else []) := by
  have hno : ¬ (¬ args.sanitize = [] ∧ args.sanitize_all = true) := fun hx => hx.1 hs
  obtain ⟨T0, hT0, htag0, henv0, hhd0, hne0⟩ :=
    handle_invocation_ok plat oracle (swiftExecOf (canonArgs cwd args).toolchain)
      (canonArgs cwd args) env hc
  simp only [main_run]
  rw [if_neg hno]
  rw [hT0]
  have hsa : (canonArgs cwd args).sanitize_all = true := by simp [canonArgs, ha]
  dsimp only
  rw [if_pos hsa]
  obtain ⟨T1, hT1, htag1, henv1, hhd1, hne1⟩ :=
    handle_invocation_ok plat oracle (swiftExecOf (canonArgs cwd args).toolchain)
      { canonArgs cwd args with
        sanitize := ["address"],
        build_path := os_path_join2 (canonArgs cwd args).build_path "test-asan" }
      (invocationEnv (canonArgs cwd args) env) hc
  rw [hT1]
  obtain ⟨T2, hT2, htag2, henv2, hhd2, hne2⟩ :=
    handle_invocation_ok plat oracle (swiftExecOf (canonArgs cwd args).toolchain)
      { canonArgs cwd args with
        sanitize := ["thread"],
        build_path := os_path_join2 (canonArgs cwd args).build_path "test-tsan" }
      (invocationEnv
        { canonArgs cwd args with
          sanitize := ["address"],
          build_path := os_path_join2 (canonArgs cwd args).build_path "test-asan" }
        (invocationEnv (canonArgs cwd args) env)) hc
  dsimp only
  rw [hT2]
  dsimp only
  by_cases hp : plat = "Linux"
  · rw [if_neg (fun hx => hx hp), if_neg (fun hx => hx hp)]
    dsimp only
    simp [List.filterMap_append, htag0, htag1, htag2, eventTag, canonArgs]
  · rw [if_pos hp, if_pos hp]
    obtain ⟨T3, hT3, htag3, henv3, hhd3, hne3⟩ :=
      handle_invocation_ok plat oracle (swiftExecOf (canonArgs cwd args).toolchain)
        { canonArgs cwd args with
          sanitize := ["undefined"],
          build_path := os_path_join2 (canonArgs cwd args).build_path "test-ubsan" }
        (invocationEnv
          { canonArgs cwd args with
            sanitize := ["thread"],
            build_path := os_path_join2 (canonArgs cwd args).build_path "test-tsan" }
          (invocationEnv
            { canonArgs cwd args with
              sanitize := ["address"],
              build_path := os_path_join2 (canonArgs cwd args).build_path "test-asan" }
            (invocationEnv (canonArgs cwd args) env))) hc
    rw [hT3]
    dsimp only
    simp [List.filterMap_append, htag0, htag1, htag2, htag3, eventTag, canonArgs]

/-- Witness for C1 at a concrete sanitize-all build request on Linux. -/
theorem c1_sanitize_all_matrix_witness :
    List.filterMap eventTag
        (main_run "Linux" "/" sampleOracle (sampleArgs Action.build [] true) []).1 =
      [Sum.inr (mainCmd (swiftExecOf (canonArgs "/" (sampleArgs Action.build [] true)).toolchain)
         "Linux" (canonArgs "/" (sampleArgs Action.build [] true))),
       Sum.inl (sanBanner (sampleArgs Action.build [] true).action "asan"),
       Sum.inr (mainCmd (swiftExecOf (canonArgs "/" (sampleArgs Action.build [] true)).toolchain)
         "Linux"
         { canonArgs "/" (sampleArgs Action.build [] true) with
           sanitize := ["address"],
           build_path := os_path_join2
             (canonArgs "/" (sampleArgs Action.build [] true)).build_path "test-asan" }),
       Sum.inl (sanBanner (sampleArgs Action.build [] true).action "tsan"),
       Sum.inr (mainCmd (swiftExecOf (canonArgs "/" (sampleArgs Action.build [] true)).toolchain)
         "Linux"
         { canonArgs "/" (sampleArgs Action.build [] true) with
           sanitize := ["thread"],
           build_path := os_path_join2
             (canonArgs "/" (sampleArgs Action.build [] true)).build_path "test-tsan" })]
      ++ (if ¬ ("Linux" : String) = "Linux" then
            [Sum.inl (sanBanner (sampleArgs Action.build [] true).action "ubsan"),
             Sum.inr (mainCmd
               (swiftExecOf (canonArgs "/" (sampleArgs Action.build [] true)).toolchain) "Linux"
               { canonArgs "/" (sampleArgs Action.build [] true) with
                 sanitize := ["undefined"],
                 build_path := os_path_join2
                   (canonArgs "/" (sampleArgs Action.build [] true)).build_path "test-ubsan" })]
          else []) :=
  c1_sanitize_all_matrix "Linux" "/" sampleOracle (sampleArgs Action.build [] true) []
    (fun _ => rfl) rfl rfl

/-! ## Claim C3 (corrected) -/

theorem runEnvs_append (a b : List Event) : runEnvs (a ++ b) = runEnvs a ++ runEnvs b :=
  List.filterMap_append a b _

theorem runEnvs_banner_cons (m : String) (rest : List Event) :
    runEnvs (Event.banner m :: rest) = runEnvs rest := by
  simp [runEnvs, List.filterMap_cons]

/-- C3 counterexample: the claim says no variable set for one invocation is
visible to a later invocation in the same run. In a concrete sanitize-all
run started with an empty inherited environment, the environments passed to
the three spawned invocations (base, address pass, thread pass) carry
`ASAN_OPTIONS` as follows: absent for the base invocation, set by the
address pass, and still set — and visible — in the thread pass's spawned
environment, although the thread pass's own overlay never assigns it. -/
theorem c3_counterexample :
    (runEnvs (main_run "Linux" "/" sampleOracle (sampleArgs Action.build [] true) []).1).map
        (fun e => envGet e "ASAN_OPTIONS")
      = [none, some "detect_leaks=false", some "detect_leaks=false"] := by
  decide

/-- C3 (amended): the environment overlay is applied by mutating the shared
process environment (`env = os.environ` aliases the global mapping) in
place, so its lifetime is the remainder of the run, not a single
invocation: each spawned invocation receives the inherited environment plus
all overlay assignments made so far, and a sanitizer variable set for an
earlier pass (here `ASAN_OPTIONS`, set by the address pass) remains visible
in the environment passed to later passes, while the base invocation's
environment still agrees with the inherited one on that variable. -/
theorem c3_env_overlay_mutates_global (plat cwd : String) (oracle : Oracle) (args : Args)
    (env : Env) (hc : ∀ c, oracle.exitCode c = 0) (hs : args.sanitize = [])
    (ha : args.sanitize_all = true) :
    runEnvs (main_run plat cwd oracle args env).1 =
      [invocationEnv (canonArgs cwd args) env,
       invocationEnv
         { canonArgs cwd args with
           sanitize := ["address"],
           build_path := os_path_join2 (canonArgs cwd args).build_path "test-asan" }
         (invocationEnv (canonArgs cwd args) env),
       invocationEnv
         { canonArgs cwd args with
           sanitize := ["thread"],
           build_path := os_path_join2 (canonArgs cwd args).build_path "test-tsan" }
         (invocationEnv
           { canonArgs cwd args with
             sanitize := ["address"],
             build_path := os_path_join2 (canonArgs cwd args).build_path "test-asan" }
           (invocationEnv (canonArgs cwd args) env))]
      ++ (if ¬ plat = "Linux" then
            [invocationEnv
              { canonArgs cwd args with
                sanitize := ["undefined"],
                build_path := os_path_join2 (canonArgs cwd args).build_path "test-ubsan" }
              (invocationEnv
                { canonArgs cwd args with
                  sanitize := ["thread"],
                  build_path := os_path_join2 (canonArgs cwd args).build_path "test-tsan" }
                (invocationEnv
                  { canonArgs cwd args with
                    sanitize := ["address"],
                    build_path := os_path_join2 (canonArgs cwd args).build_path "test-asan" }
                  (invocationEnv (canonArgs cwd args) env)))]
          else []) ∧
    envGet (invocationEnv (canonArgs cwd args) env) "ASAN_OPTIONS"
      = envGet env "ASAN_OPTIONS" ∧
    envGet
        (invocationEnv
          { canonArgs cwd args with
            sanitize := ["thread"],
            build_path := os_path_join2 (canonArgs cwd args).build_path "test-tsan" }
          (invocationEnv
            { canonArgs cwd args with
              sanitize := ["address"],
              build_path := os_path_join2 (canonArgs cwd args).build_path "test-asan" }
            (invocationEnv (canonArgs cwd args) env)))
        "ASAN_OPTIONS"
      = some "detect_leaks=false" := by
  refine ⟨?_, ?_, ?_⟩
  · have hno : ¬ (¬ args.sanitize = [] ∧ args.sanitize_all = true) := fun hx => hx.1 hs
    obtain ⟨T0, hT0, htag0, henv0, hhd0, hne0⟩ :=
      handle_invocation_ok plat oracle (swiftExecOf (canonArgs cwd args).toolchain)
        (canonArgs cwd args) env hc
    simp only [main_run]
    rw [if_neg hno]
    rw [hT0]
    have hsa : (canonArgs cwd args).sanitize_all = true := by simp [canonArgs, ha]
    dsimp only
    rw [if_pos hsa]
    obtain ⟨T1, hT1, htag1, henv1, hhd1, hne1⟩ :=
      handle_invocation_ok plat oracle (swiftExecOf (canonArgs cwd args).toolchain)
        { canonArgs cwd args with
          sanitize := ["address"],
          build_path := os_path_join2 (canonArgs cwd args).build_path "test-asan" }
        (invocationEnv (canonArgs cwd args) env) hc
    rw [hT1]
    obtain ⟨T2, hT2, htag2, henv2, hhd2, hne2⟩ :=
      handle_invocation_ok plat oracle (swiftExecOf (canonArgs cwd args).toolchain)
        { canonArgs cwd args with
          sanitize := ["thread"],
          build_path := os_path_join2 (canonArgs cwd args).build_path "test-tsan" }
        (invocationEnv
          { canonArgs cwd args with
            sanitize := ["address"],
            build_path := os_path_join2 (canonArgs cwd args).build_path "test-asan" }
          (invocationEnv (canonArgs cwd args) env)) hc
    dsimp only
    rw [hT2]
    dsimp only
    have hb : ∀ m, runEnvs [Event.banner m] = ([] : List Env) := fun m => rfl
    by_cases hp : plat = "Linux"
    · rw [if_neg (fun hx => hx hp), if_neg (fun hx => hx hp)]
      dsimp only
      simp [runEnvs_append, runEnvs_banner_cons, henv0, henv1, henv2, hb]
    · rw [if_pos hp, if_pos hp]
      obtain ⟨T3, hT3, htag3, henv3, hhd3, hne3⟩ :=
        handle_invocation_ok plat oracle (swiftExecOf (canonArgs cwd args).toolchain)
          { canonArgs cwd args with
            sanitize := ["undefined"],
            build_path := os_path_join2 (canonArgs cwd args).build_path "test-ubsan" }
          (invocationEnv
            { canonArgs cwd args with
              sanitize := ["thread"],
              build_path := os_path_join2 (canonArgs cwd args).build_path "test-tsan" }
            (invocationEnv
              { canonArgs cwd args with
                sanitize := ["address"],
                build_path := os_path_join2 (canonArgs cwd args).build_path "test-asan" }
              (invocationEnv (canonArgs cwd args) env))) hc
      rw [hT3]
      dsimp only
      simp [runEnvs_append, runEnvs_banner_cons, henv0, henv1, henv2, henv3, hb]
  · rw [envGet_invocationEnv_asan,
      if_neg (fun hcontra => hcontra.1 (by simp [canonArgs, hs]))]
  · rw [envGet_invocationEnv_asan, if_neg (by simp), envGet_invocationEnv_asan,
      if_pos (by simp)]

/-- Witness for C3 (amended) at a concrete sanitize-all run from an empty
inherited environment: the base invocation's environment lacks
`ASAN_OPTIONS`, and the thread pass's environment still carries the value
the address pass assigned. -/
theorem c3_env_overlay_mutates_global_witness :
    envGet (invocationEnv (canonArgs "/" (sampleArgs Action.build [] true)) []) "ASAN_OPTIONS"
      = envGet [] "ASAN_OPTIONS" ∧
    envGet
        (invocationEnv
          { canonArgs "/" (sampleArgs Action.build [] true) with
            sanitize := ["thread"],
            build_path := os_path_join2
              (canonArgs "/" (sampleArgs Action.build [] true)).build_path "test-tsan" }
          (invocationEnv
            { canonArgs "/" (sampleArgs Action.build [] true) with
              sanitize := ["address"],
              build_path := os_path_join2
                (canonArgs "/" (sampleArgs Action.build [] true)).build_path "test-asan" }
            (invocationEnv (canonArgs "/" (sampleArgs Action.build [] true)) [])))
        "ASAN_OPTIONS"
      = some "detect_leaks=false" :=
  ⟨(c3_env_overlay_mutates_global "Linux" "/" sampleOracle (sampleArgs Action.build [] true) []
      (fun _ => rfl) rfl rfl).2.1,
   (c3_env_overlay_mutates_global "Linux" "/" sampleOracle (sampleArgs Action.build [] true) []
      (fun _ => rfl) rfl rfl).2.2⟩

/-! ## Claim C2 (corrected) -/

/-- C2 counterexample: the claim says the orchestrator's process exit code
mirrors the exit code of the first failing build-tool invocation. In a
concrete run whose only invocation exits with code 2, the uncaught
`CalledProcessError` carries code 2, yet the orchestrator process exits
with status 1 (CPython's uncaught-exception status), not 2. -/
theorem c2_counterexample :
    errCode (main_run "Darwin" "/" ⟨fun _ => 2, fun _ => ""⟩
        (sampleArgs Action.build [] false) []).2.2 = some 2 ∧
    processExitCode (main_run "Darwin" "/" ⟨fun _ => 2, fun _ => ""⟩
        (sampleArgs Action.build [] false) []).2.2 = 1 := by
  decide

/-- C2 (amended): if any build-tool invocation exits non-zero, execution
stops immediately — the failing spawn is the last event of the run, so no
later sanitizer pass in the fixed order is attempted and there is no
retry — and the orchestrator's own process exit status is 1 (Python's
uncaught-exception status, regardless of the underlying tool's exit code),
while it is 0 when every invocation succeeds. -/
theorem c2_failure_stops_run (plat cwd : String) (oracle : Oracle) (args : Args) (env : Env) :
    ((main_run plat cwd oracle args env).2.2 = none →
      processExitCode (main_run plat cwd oracle args env).2.2 = 0) ∧
    (∀ c cmd, (main_run plat cwd oracle args env).2.2 = some (Err.calledProcessError c cmd) →
      ¬ c = 0 ∧ processExitCode (main_run plat cwd oracle args env).2.2 = 1 ∧
      (main_run plat cwd oracle args env).1.getLast?.bind eventCmd = some cmd) := by
  constructor
  · intro h
    rw [h]
    rfl
  · intro c cmd hres
    by_cases h0 : ¬ args.sanitize = [] ∧ args.sanitize_all = true
    · simp only [main_run] at hres ⊢
      rw [if_pos h0] at hres ⊢
      simp at hres
    · simp only [main_run] at hres ⊢
      rw [if_neg h0] at hres ⊢
      rcases hh0 : handle_invocation plat oracle (swiftExecOf (canonArgs cwd args).toolchain)
          (canonArgs cwd args) env with ⟨t0, e0, r0⟩
      rw [hh0] at hres
      rcases r0 with _ | err0
      · dsimp only at hres ⊢
        by_cases hsa : (canonArgs cwd args).sanitize_all = true
        · rw [if_pos hsa] at hres ⊢
          rcases hh1 : handle_invocation plat oracle
              (swiftExecOf (canonArgs cwd args).toolchain)
              { canonArgs cwd args with
                sanitize := ["address"],
                build_path := os_path_join2 (canonArgs cwd args).build_path "test-asan" }
              e0 with ⟨t1, e1, r1⟩
          rw [hh1] at hres
          rcases r1 with _ | err1
          · dsimp only at hres ⊢
            rcases hh2 : handle_invocation plat oracle
                (swiftExecOf (canonArgs cwd args).toolchain)
                { canonArgs cwd args with
                  sanitize := ["thread"],
                  build_path := os_path_join2 (canonArgs cwd args).build_path "test-tsan" }
                e1 with ⟨t2, e2, r2⟩
            rw [hh2] at hres
            rcases r2 with _ | err2
            · dsimp only at hres ⊢
              by_cases hp : ¬ plat = "Linux"
              · rw [if_pos hp] at hres ⊢
                rcases hh3 : handle_invocation plat oracle
                    (swiftExecOf (canonArgs cwd args).toolchain)
                    { canonArgs cwd args with
                      sanitize := ["undefined"],
                      build_path := os_path_join2 (canonArgs cwd args).build_path "test-ubsan" }
                    e2 with ⟨t3, e3, r3⟩
                rw [hh3] at hres
                rcases r3 with _ | err3
                · dsimp only at hres
                  simp at hres
                · dsimp only at hres ⊢
                  simp only [Option.some.injEq] at hres
                  subst hres
                  have hne3 := handle_invocation_trace_ne_nil plat oracle
                    (swiftExecOf (canonArgs cwd args).toolchain)
                    { canonArgs cwd args with
                      sanitize := ["undefined"],
                      build_path := os_path_join2 (canonArgs cwd args).build_path "test-ubsan" }
                    e2
                  rw [hh3] at hne3
                  have herr := handle_invocation_err plat oracle
                    (swiftExecOf (canonArgs cwd args).toolchain)
                    { canonArgs cwd args with
                      sanitize := ["undefined"],
                      build_path := os_path_join2 (canonArgs cwd args).build_path "test-ubsan" }
                    e2 c cmd (by rw [hh3])
                  rw [hh3] at herr
                  refine ⟨herr.1, rfl, ?_⟩
                  rw [List.getLast?_append_of_ne_nil _ hne3]
                  exact herr.2
              · rw [if_neg hp] at hres ⊢
                simp at hres
            · dsimp only at hres ⊢
              simp only [Option.some.injEq] at hres
              subst hres
              have hne2 := handle_invocation_trace_ne_nil plat oracle
                (swiftExecOf (canonArgs cwd args).toolchain)
                { canonArgs cwd args with
                  sanitize := ["thread"],
                  build_path := os_path_join2 (canonArgs cwd args).build_path "test-tsan" }
                e1
              rw [hh2] at hne2
              have herr := handle_invocation_err plat oracle
                (swiftExecOf (canonArgs cwd args).toolchain)
                { canonArgs cwd args with
                  sanitize := ["thread"],
                  build_path := os_path_join2 (canonArgs cwd args).build_path "test-tsan" }
                e1 c cmd (by rw [hh2])
              rw [hh2] at herr
              refine ⟨herr.1, rfl, ?_⟩
              rw [List.getLast?_append_of_ne_nil _ hne2]
              exact herr.2
          · dsimp only at hres ⊢
            simp only [Option.some.injEq] at hres
            subst hres
            have hne1 := handle_invocation_trace_ne_nil plat oracle
              (swiftExecOf (canonArgs cwd args).toolchain)
              { canonArgs cwd args with
                sanitize := ["address"],
                build_path := os_path_join2 (canonArgs cwd args).build_path "test-asan" }
              e0
            rw [hh1] at hne1
            have herr := handle_invocation_err plat oracle
              (swiftExecOf (canonArgs cwd args).toolchain)
              { canonArgs cwd args with
                sanitize := ["address"],
                build_path := os_path_join2 (canonArgs cwd args).build_path "test-asan" }
              e0 c cmd (by rw [hh1])
            rw [hh1] at herr
            refine ⟨herr.1, rfl, ?_⟩
            rw [List.getLast?_append_of_ne_nil _ hne1]
            exact herr.2
        · rw [if_neg hsa] at hres ⊢
          simp at hres
      · dsimp only at hres ⊢
        simp only [Option.some.injEq] at hres
        subst hres
        have herr := handle_invocation_err plat oracle
          (swiftExecOf (canonArgs cwd args).toolchain) (canonArgs cwd args) env c cmd
          (by rw [hh0])
        rw [hh0] at herr
        exact ⟨herr.1, rfl, herr.2⟩

/-- Witness for C2 (amended): an all-success run exits with status 0, and a
run whose only invocation exits with code 3 ends with that spawn as its
last event and exits with status 1. -/
theorem c2_failure_stops_run_witness :
    processExitCode (main_run "Darwin" "/" sampleOracle
        (sampleArgs Action.build [] false) []).2.2 = 0 ∧
    (¬ (3 : Nat) = 0 ∧
      processExitCode (main_run "Darwin" "/" ⟨fun _ => 3, fun _ => ""⟩
          (sampleArgs Action.build [] false) []).2.2 = 1 ∧
      (main_run "Darwin" "/" ⟨fun _ => 3, fun _ => ""⟩
          (sampleArgs Action.build [] false) []).1.getLast?.bind eventCmd
        = some ["/t/bin/swift", "build", "--package-path", "/p", "--build-path", "/b",
                "--configuration", "debug"]) :=
  ⟨(c2_failure_stops_run "Darwin" "/" sampleOracle (sampleArgs Action.build [] false) []).1
      (by decide),
   (c2_failure_stops_run "Darwin" "/" ⟨fun _ => 3, fun _ => ""⟩
      (sampleArgs Action.build [] false) []).2 3
      ["/t/bin/swift", "build", "--package-path", "/p", "--build-path", "/b",
       "--configuration", "debug"]
      (by decide)⟩

/-! ## Claim C10 -/

theorem head?_append_left {α : Type} (a b : List α) (h : ¬ a = []) :
    (a ++ b).head? = a.head? :=
  List.head?_append_of_ne_nil a h

/-- C10: before any cleanup or subprocess invocation, the orchestrator
canonicalizes the package path, build path, and toolchain path to absolute
paths (resolved against the current working directory, itself absolute), so
relative command-line inputs — including the defaults `.` and `.build` —
become absolute; every sanitize-all derived build path, formed by joining
the already-absolute base path with the pass subdirectory, is absolute as
well; and the first event of any run (the build-directory cleanup) already
uses the canonicalized build path. -/
theorem c10_paths_canonicalized (plat cwd : String) (oracle : Oracle) (args : Args) (env : Env)
    (hcwd : isAbs cwd = true) :
    isAbs (canonArgs cwd args).package_path = true ∧
    isAbs (canonArgs cwd args).build_path = true ∧
    isAbs (canonArgs cwd args).toolchain = true ∧
    isAbs (os_path_join2 (canonArgs cwd args).build_path "test-asan") = true ∧
    isAbs (os_path_join2 (canonArgs cwd args).build_path "test-tsan") = true ∧
    isAbs (os_path_join2 (canonArgs cwd args).build_path "test-ubsan") = true ∧
    (¬ (¬ args.sanitize = [] ∧ args.sanitize_all = true) →
      (main_run plat cwd oracle args env).1.head?
        = some (Event.cleaned (canonArgs cwd args).build_path)) := by
  refine ⟨isAbs_os_path_abspath _ _ hcwd, isAbs_os_path_abspath _ _ hcwd,
    isAbs_os_path_abspath _ _ hcwd,
    isAbs_os_path_join2 _ _ (isAbs_os_path_abspath _ _ hcwd),
    isAbs_os_path_join2 _ _ (isAbs_os_path_abspath _ _ hcwd),
    isAbs_os_path_join2 _ _ (isAbs_os_path_abspath _ _ hcwd), ?_⟩
  intro hno
  simp only [main_run]
  rw [if_neg hno]
  have hhd0 := handle_invocation_trace_head plat oracle
    (swiftExecOf (canonArgs cwd args).toolchain) (canonArgs cwd args) env
  have hne0 := handle_invocation_trace_ne_nil plat oracle
    (swiftExecOf (canonArgs cwd args).toolchain) (canonArgs cwd args) env
  rcases hh0 : handle_invocation plat oracle (swiftExecOf (canonArgs cwd args).toolchain)
      (canonArgs cwd args) env with ⟨t0, e0, r0⟩
  rw [hh0] at hhd0 hne0
  rcases r0 with _ | err0
  · dsimp only
    by_cases hsa : (canonArgs cwd args).sanitize_all = true
    · rw [if_pos hsa]
      rcases hh1 : handle_invocation plat oracle
          (swiftExecOf (canonArgs cwd args).toolchain)
          { canonArgs cwd args with
            sanitize := ["address"],
            build_path := os_path_join2 (canonArgs cwd args).build_path "test-asan" }
          e0 with ⟨t1, e1, r1⟩
      rcases r1 with _ | err1
      · dsimp only
        rcases hh2 : handle_invocation plat oracle
            (swiftExecOf (canonArgs cwd args).toolchain)
            { canonArgs cwd args with
              sanitize := ["thread"],
              build_path := os_path_join2 (canonArgs cwd args).build_path "test-tsan" }
            e1 with ⟨t2, e2, r2⟩
        rcases r2 with _ | err2
        · dsimp only
          by_cases hp : ¬ plat = "Linux"
          · rw [if_pos hp]
            rcases hh3 : handle_invocation plat oracle
                (swiftExecOf (canonArgs cwd args).toolchain)
                { canonArgs cwd args with
                  sanitize := ["undefined"],
                  build_path := os_path_join2 (canonArgs cwd args).build_path "test-ubsan" }
                e2 with ⟨t3, e3, r3⟩
            dsimp only
            simp only [List.append_assoc]
            rw [head?_append_left _ _ hne0]
            exact hhd0
          · rw [if_neg hp]
            dsimp only
            simp only [List.append_assoc]
            rw [head?_append_left _ _ hne0]
            exact hhd0
        · dsimp only
          simp only [List.append_assoc]
          rw [head?_append_left _ _ hne0]
          exact hhd0
      · dsimp only
        simp only [List.append_assoc]
        rw [head?_append_left _ _ hne0]
        exact hhd0
    · rw [if_neg hsa]
      dsimp only
      exact hhd0
  · dsimp only
    exact hhd0

/-- Witness for C10 at the default relative inputs `.` and `.build` with a
relative toolchain path, resolved against the absolute working directory
`/w`. -/
theorem c10_paths_canonicalized_witness :
    isAbs (canonArgs "/w"
      { action := Action.build, package_path := ".", toolchain := "tc",
        ninja_bin := none, build_path := ".build", configuration := "debug",
        sanitize := [], sanitize_all := false, verbose := false }).package_path = true ∧
    isAbs (canonArgs "/w"
      { action := Action.build, package_path := ".", toolchain := "tc",
        ninja_bin := none, build_path := ".build", configuration := "debug",
        sanitize := [], sanitize_all := false, verbose := false }).build_path = true ∧
    isAbs (canonArgs "/w"
      { action := Action.build, package_path := ".", toolchain := "tc",
        ninja_bin := none, build_path := ".build", configuration := "debug",
        sanitize := [], sanitize_all := false, verbose := false }).toolchain = true ∧
    (main_run "Darwin" "/w" sampleOracle
        { action := Action.build, package_path := ".", toolchain := "tc",
          ninja_bin := none, build_path := ".build", configuration := "debug",
          sanitize := [], sanitize_all := false, verbose := false } []).1.head?
      = some (Event.cleaned (canonArgs "/w"
        { action := Action.build, package_path := ".", toolchain := "tc",
          ninja_bin := none, build_path := ".build", configuration := "debug",
          sanitize := [], sanitize_all := false, verbose := false }).build_path) := by
  have h := c10_paths_canonicalized "Darwin" "/w" sampleOracle
    { action := Action.build, package_path := ".", toolchain := "tc",
      ninja_bin := none, build_path := ".build", configuration := "debug",
      sanitize := [], sanitize_all := false, verbose := false } [] (by decide)
  exact ⟨h.1, h.2.1, h.2.2.1, h.2.2.2.2.2.2 (by decide)⟩

end BuildScriptHelper
